import Mathlib

/-!
# catops: the page renderer and the image proxy of `fetchcataas.go`

A shallow embedding of the two HTTP handlers `serveHTML` and
`serveImageFromAPI`.  The handlers are straight-line Go code over library
objects, so the embedding passes those objects around explicitly:

* `ResponseWriter` is the `http.ResponseWriter` handed to a handler: the header
  map the handler edits, the status line and header snapshot committed by the
  first `WriteHeader`/`Write`, the bytes the connection has taken, and how many
  more bytes the connection will take before writes start to fail;
* `World` is everything else a handler touches: the clock, the upstream that
  answers `http.Get`, the number of GETs issued and the log;
* `Body` is the upstream `resp.Body`: the chunks successive `Read`s return, the
  error (if any) that ends the stream, and a count of `Close` calls.

Bytes are natural numbers; every string these handlers write is ASCII, so a
string is turned into bytes code point by code point.
-/

set_option maxRecDepth 100000

namespace Catops

/-! ## Bytes, headers -/

/-- One octet of a body. -/
abbrev Byte := Nat

/-- Octets of an ASCII string (code point = UTF-8 byte for ASCII). -/
def bytesOf (s : String) : List Byte := s.toList.map Char.toNat

/-- Go `http.Header`: a map from canonical key to the list of its values.  All
keys this program uses are already in canonical MIME form. -/
structure Header where
  entries : List (String × List String)
deriving DecidableEq

namespace Header

/-- The empty header map. -/
def empty : Header := ⟨[]⟩

/-- Go `Header.Get`: first value stored under the key, `""` when there is none. -/
def Get (h : Header) (key : String) : String :=
  match h.entries.lookup key with
  | some (v :: _) => v
  | _ => ""

/-- Go `Header.Del`: drop the key. -/
def Del (h : Header) (key : String) : Header :=
  ⟨h.entries.filter fun e => e.1 != key⟩

/-- Go `Header.Set`: replace whatever is stored under the key by the one value. -/
def Set (h : Header) (key value : String) : Header :=
  ⟨(h.Del key).entries ++ [(key, [value])]⟩

/-- Whether the key is present at all. -/
def Has (h : Header) (key : String) : Bool :=
  (h.entries.lookup key).isSome

end Header

/-- Go `http.StatusOK`. -/
def StatusOK : Int := 200

/-- Go `http.StatusInternalServerError`. -/
def StatusInternalServerError : Int := 500

/-- Go `http.StatusBadGateway`. -/
def StatusBadGateway : Int := 502

/-! ## The response writer -/

/-- State of the `http.ResponseWriter` of one request. -/
structure ResponseWriter where
  /-- the map returned by `w.Header()` -/
  handlerHeader : Header
  /-- whether the status line and headers have been committed -/
  wroteHeader : Bool
  /-- committed status code (meaningful once `wroteHeader`) -/
  status : Int
  /-- headers as committed together with the status -/
  sent : Header
  /-- body bytes the connection has taken so far -/
  body : List Byte
  /-- bytes the connection still takes before a write fails; `none`: no limit -/
  room : Option Nat
  /-- error a failing write returns -/
  werr : String
deriving DecidableEq

namespace ResponseWriter

/-- Writer the server hands to a handler: nothing set, nothing committed. -/
def fresh (room : Option Nat) (werr : String) : ResponseWriter :=
  { handlerHeader := Header.empty, wroteHeader := false, status := 0,
    sent := Header.empty, body := [], room := room, werr := werr }

/-- Go `w.Header().Set(key, value)`. -/
def SetHeader (w : ResponseWriter) (key value : String) : ResponseWriter :=
  { w with handlerHeader := w.handlerHeader.Set key value }

/-- Go `w.Header().Del(key)`. -/
def DelHeader (w : ResponseWriter) (key : String) : ResponseWriter :=
  { w with handlerHeader := w.handlerHeader.Del key }

/-- Go `w.WriteHeader(code)`: the first call commits the status together with a
snapshot of the header map; any later call is superfluous and changes nothing. -/
def WriteHeader (w : ResponseWriter) (code : Int) : ResponseWriter :=
  if w.wroteHeader then w
  else { w with wroteHeader := true, status := code, sent := w.handlerHeader }

/-- Go `w.Write(p)`: commits status 200 first when nothing is committed yet (as
`net/http` does, before it touches the connection, so also when the write then
fails), then hands `p` to the connection.  A connection with room for `k` more
bytes takes the first `k` bytes of a longer `p`, reports the error and takes
nothing afterwards.  Returns the writer, the number of bytes taken and the
error. -/
def Write (w : ResponseWriter) (p : List Byte) : ResponseWriter × Nat × Option String :=
  let w := w.WriteHeader StatusOK
  if p.length = 0 then (w, 0, none)
  else
    match w.room with
    | none => ({ w with body := w.body ++ p }, p.length, none)
    | some k =>
      if p.length ≤ k then
        ({ w with body := w.body ++ p, room := some (k - p.length) }, p.length, none)
      else
        ({ w with body := w.body ++ p.take k, room := some 0 }, k, some w.werr)

end ResponseWriter

/-- What the client gets once the handler has returned. -/
structure ClientResponse where
  status : Int
  header : Header
  body : List Byte
deriving DecidableEq

/-- The server finishing a request: a handler that returned without committing
a status gets `200` with the header map as it stands. -/
def ResponseWriter.response (w : ResponseWriter) : ClientResponse :=
  let w := w.WriteHeader StatusOK
  { status := w.status, header := w.sent, body := w.body }

/-- Go `http.Error(w, error, code)`: drop `Content-Length`, set the content type
to plain text and `X-Content-Type-Options: nosniff`, write the status, print
the message and a newline. -/
def Error (w : ResponseWriter) (error : String) (code : Int) : ResponseWriter :=
  let w := w.DelHeader "Content-Length"
  let w := w.SetHeader "Content-Type" "text/plain; charset=utf-8"
  let w := w.SetHeader "X-Content-Type-Options" "nosniff"
  let w := w.WriteHeader code
  -- fmt.Fprintln(w, error)
  (w.Write (bytesOf (error ++ "\n"))).1

/-! ## `%d` -/

/-- Digits of `%d`: peel off the last digit by division by ten until nothing is
left; the first argument bounds the number of steps. -/
def fmtDigits : Nat → Nat → List Char → List Char
  | 0, _, acc => acc
  | fuel + 1, n, acc =>
    if n / 10 = 0 then Nat.digitChar (n % 10) :: acc
    else fmtDigits fuel (n / 10) (Nat.digitChar (n % 10) :: acc)

/-- Go `%d` of a non-negative integer. -/
def fmtNat (n : Nat) : List Char := fmtDigits (n + 1) n []

/-- Go `fmt.Sprintf("%d", x)`. -/
def fmtInt : Int → List Char
  | Int.ofNat n => fmtNat n
  | Int.negSucc n => '-' :: fmtNat (n + 1)

/-! ## The upstream -/

/-- The upstream `resp.Body`. -/
structure Body where
  /-- data returned by the successive `Read` calls still to come -/
  chunks : List (List Byte)
  /-- how the stream ends once the chunks are used up: `none` is `io.EOF`,
  `some e` a read error -/
  readErr : Option String
  /-- number of `Close` calls so far -/
  closed : Nat
deriving DecidableEq

/-- Go `resp.Body.Close()`. -/
def Body.Close (b : Body) : Body := { b with closed := b.closed + 1 }

/-- All bytes the stream yields. -/
def Body.bytes (b : Body) : List Byte := b.chunks.flatten

/-- Go `*http.Response`, the fields the handler reads. -/
structure Response where
  StatusCode : Int
  Status : String
  Header : Header
  Body : Body
deriving DecidableEq

/-- Result of `http.Get`: a transport error or a response. -/
inductive GetResult where
  | failure (err : String)
  | success (resp : Response)
deriving DecidableEq

/-- Everything outside the response writer. -/
structure World where
  /-- what `time.Now().UnixNano()` reads during this request -/
  now : Int
  /-- what `http.Get(externalAPIImageEndpoint)` returns -/
  upstream : GetResult
  /-- outbound GETs issued so far -/
  gets : Nat
  /-- messages handed to the `log` package so far, oldest first -/
  log : List String
deriving DecidableEq

/-- Go `log.Println` / `log.Printf` with the message already formatted. -/
def World.logMsg (s : World) (msg : String) : World :=
  { s with log := s.log ++ [msg] }

/-- Go `http.Get(externalAPIImageEndpoint)`. -/
def World.httpGet (s : World) : GetResult × World :=
  (s.upstream, { s with gets := s.gets + 1 })

/-- Go `io.Copy(w, body)`: read a chunk, write it, until the stream ends or a
read or a write fails.  Returns the writer, the chunks left unread and the
error (`none` when the stream ended with `io.EOF`). -/
def copyLoop : List (List Byte) → Option String → ResponseWriter →
    ResponseWriter × List (List Byte) × Option String
  | [], readErr, w => (w, [], readErr)
  | c :: cs, readErr, w =>
    if c.length = 0 then copyLoop cs readErr w
    else
      match w.Write c with
      | (w1, _, some ew) => (w1, cs, some ew)
      | (w1, nw, none) =>
        if nw ≠ c.length then (w1, cs, some "short write")
        else copyLoop cs readErr w1

/-- Go `io.Copy(w, resp.Body)`. -/
def ioCopy (w : ResponseWriter) (b : Body) : ResponseWriter × Body × Option String :=
  match copyLoop b.chunks b.readErr w with
  | (w1, rest, err) => (w1, { b with chunks := rest }, err)

/-! ## `serveImageFromAPI` -/

/-- State in which `serveImageFromAPI` leaves things. -/
structure Outcome where
  w : ResponseWriter
  world : World
  /-- the upstream body handle, when the GET produced one -/
  body : Option Body
  /-- the error `io.Copy` returned, when the copy ran and failed -/
  copyErr : Option String
deriving DecidableEq

/-- What `serveImageFromAPI` does once it holds a response and has registered the
deferred `Close` (from the status check to the last log line). -/
def serveImageWithResp (s : World) (w : ResponseWriter) (resp : Response) : Outcome :=
  if resp.StatusCode ≠ StatusOK then
    let s := s.logMsg ("External API request failed with status code: " ++
      String.mk (fmtInt resp.StatusCode) ++ " " ++ resp.Status)
    let w := Error w "Image source API returned an error" StatusBadGateway
    { w := w, world := s, body := some resp.Body, copyErr := none }
  else
    let contentType := resp.Header.Get "Content-Type"
    let fallback := contentType == ""
    let s := if fallback then
        s.logMsg "Warning: External API did not provide Content-Type. Assuming image/jpeg."
      else s
    let contentType := if fallback then "image/jpeg" else contentType
    let w := w.SetHeader "Content-Type" contentType
    let w := w.SetHeader "Cache-Control" "no-cache, no-store, must-revalidate"
    let w := w.SetHeader "Pragma" "no-cache"
    let w := w.SetHeader "Expires" "0"
    match ioCopy w resp.Body with
    | (w, body, err) =>
      let s := match err with
        | some e => s.logMsg ("Failed to stream image data to client: " ++ e)
        | none => s
      let s := s.logMsg ("Successfully served image with Content-Type: " ++ contentType)
      { w := w, world := s, body := some body, copyErr := err }

/-- The handler `serveImageFromAPI`. -/
def serveImageFromAPI (s : World) (w : ResponseWriter) : Outcome :=
  let s := s.logMsg "Request received for /image-from-api"
  match s.httpGet with
  | (GetResult.failure err, s) =>
    let s := s.logMsg ("Failed to get image from external API: " ++ err)
    let w := Error w "Failed to fetch image from source" StatusBadGateway
    { w := w, world := s, body := none, copyErr := none }
  | (GetResult.success resp, s) =>
    -- defer resp.Body.Close(): runs when the handler returns, on every path
    let out := serveImageWithResp s w resp
    { out with body := out.body.map Body.Close }

/-! ## The page template -/

/-- The constant `htmlTemplate`, line by line. -/
def htmlTemplate : String := String.join [
  "\n",
  "<!DOCTYPE html>\n",
  "<html>\n",
  "<head>\n",
  "    <title>cat vibe checker</title>\n",
  "    <style>\n",
  "        body \x7b font-family: sans-serif; text-align: center; \x7d\n",
  "        img \x7b border: 1px solid #ccc; margin-top: 20px; \x7d\n",
  "    </style>\n",
  "</head>\n",
  "<body>\n",
  "\t<h1>This cat matches your vibe</h1>\n",
  "    <h2>Not feeling it?</h2>\n",
  "    <p>Refresh this page to try again</p>\n",
  "    <!--\n",
  "        We add a timestamp query parameter to help prevent aggressive browser caching\n",
  "        of the image URL itself, ensuring our /image-from-api endpoint is hit.\n",
  "    -->\n",
  "    <img src=\"/image-from-api?t=\x7b\x7b.Timestamp\x7d\x7d\" alt=\"Dynamic API Image\" />\n",
  "    <p><a href=\"/\">Reload Page</a></p>\n",
  "</body>\n",
  "</html>\n"]

/-- A node of a parsed template: literal text, or an action printing a field. -/
inductive Node where
  | text (t : List Char)
  | action (pipeline : List Char)
deriving DecidableEq

/-- Go `Parse`: cut the template text at the action delimiters.  The first
argument says whether the scan is inside an action, the second collects the
characters of the current node in reverse. -/
def parseNodes : Bool → List Char → List Char → List Node
  | false, acc, '\x7b' :: '\x7b' :: rest =>
    (if acc.isEmpty then [] else [Node.text acc.reverse]) ++ parseNodes true [] rest
  | false, acc, c :: rest => parseNodes false (c :: acc) rest
  | false, acc, [] => if acc.isEmpty then [] else [Node.text acc.reverse]
  | true, acc, '\x7d' :: '\x7d' :: rest => Node.action acc.reverse :: parseNodes false [] rest
  | true, acc, c :: rest => parseNodes true (c :: acc) rest
  | true, _, [] => []

/-- The contextual escaper of `html/template` on literal text: an HTML comment
in text context is dropped from the output (from `<!--` up to and including
`-->`), everything else in this template is kept as it is.  The flag says
whether the scan is inside a comment. -/
def elideComments : Bool → List Char → List Char
  | false, '<' :: '!' :: '-' :: '-' :: rest => elideComments true rest
  | false, c :: rest => c :: elideComments false rest
  | true, '-' :: '-' :: '>' :: rest => elideComments false rest
  | true, _ :: rest => elideComments true rest
  | _, [] => []

/-- The escaper applied to one node. -/
def escapeNode : Node → Node
  | Node.text t => Node.text (elideComments false t)
  | Node.action p => Node.action p

/-- The package-level `tmpl`: the template parsed and, as on first execution,
escaped. -/
def tmpl : List Node := (parseNodes false [] htmlTemplate.toList).map escapeNode

/-- Go `PageData`. -/
structure PageData where
  Timestamp : String
deriving DecidableEq

/-- Field lookup of an action on `PageData`. -/
def PageData.field (d : PageData) (pipeline : List Char) : Option String :=
  if pipeline = ".Timestamp".toList then some d.Timestamp else none

/-! ## The escapers of a URL query inside a quoted attribute -/

/-- Characters `html/template` leaves alone in a URL: RFC 3986 unreserved. -/
def isUnreserved (c : Char) : Bool :=
  c.isAlphanum || c == '-' || c == '.' || c == '_' || c == '~'

/-- The `html/template` URL escaper (ASCII): percent-encode what is not
unreserved. -/
def urlEscaper (s : List Char) : List Char :=
  s.flatMap fun c =>
    if isUnreserved c then [c]
    else ['%', Nat.digitChar (c.toNat / 16), Nat.digitChar (c.toNat % 16)]

/-- The `html/template` attribute escaper (ASCII): the characters that could end
or confuse a quoted attribute value become character references. -/
def attrEscaper (s : List Char) : List Char :=
  s.flatMap fun c =>
    if c.toNat = 0 then [Char.ofNat 65533]
    else if c.toNat = 34 then "&#34;".toList
    else if c.toNat = 38 then "&amp;".toList
    else if c.toNat = 39 then "&#39;".toList
    else if c.toNat = 43 then "&#43;".toList
    else if c.toNat = 60 then "&lt;".toList
    else if c.toNat = 62 then "&gt;".toList
    else [c]

/-- Output of one node.  The action of this template stands in the query part
of a URL inside a double-quoted attribute, where `html/template` pipes the
value through its URL escaper and then its attribute escaper. -/
def renderNode (d : PageData) : Node → Except String (List Char)
  | Node.text t => Except.ok t
  | Node.action p =>
    match d.field p with
    | some v => Except.ok (attrEscaper (urlEscaper v.toList))
    | none => Except.error ("can't evaluate field " ++ String.mk p ++ " in type main.PageData")

/-- Go `Execute` on parsed nodes: render a node, write it to `w`, go on; stop at
the first error, leaving in place what has been written so far. -/
def execNodes : List Node → PageData → ResponseWriter → ResponseWriter × Option String
  | [], _, w => (w, none)
  | n :: ns, d, w =>
    match renderNode d n with
    | Except.error e => (w, some e)
    | Except.ok out =>
      match w.Write (out.map Char.toNat) with
      | (w1, _, some e) => (w1, some e)
      | (w1, _, none) => execNodes ns d w1

/-- Go `tmpl.Execute(w, data)`. -/
def tmplExecute (w : ResponseWriter) (d : PageData) : ResponseWriter × Option String :=
  execNodes tmpl d w

/-! ## `serveHTML` -/

/-- State in which `serveHTML` leaves things. -/
structure PageOutcome where
  w : ResponseWriter
  world : World
  /-- the error of `tmpl.Execute`, when it failed -/
  err : Option String
deriving DecidableEq

/-- The handler `serveHTML`.  The clock reading is unbounded here; the `int64`
readings of `UnixNano` are among the integers covered. -/
def serveHTML (s : World) (w : ResponseWriter) : PageOutcome :=
  let data : PageData := { Timestamp := String.mk (fmtInt s.now) }
  let w := w.SetHeader "Content-Type" "text/html; charset=utf-8"
  match tmplExecute w data with
  | (w, some err) =>
    let s := s.logMsg ("Error executing HTML template: " ++ err)
    let w := Error w "Internal Server Error" StatusInternalServerError
    { w := w, world := s, err := some err }
  | (w, none) => { w := w, world := s, err := none }

/-- Number of places at which `pat` occurs in `l`. -/
def countOcc (pat : List Byte) : List Byte → Nat
  | [] => 0
  | c :: rest => (if pat.isPrefixOf (c :: rest) then 1 else 0) + countOcc pat rest

/-- The opening of an image tag. -/
def imgTag : List Byte := bytesOf "<img"

/-! ## Vocabulary of the statements -/

/-- The content type the proxy settles on: the upstream one, or `image/jpeg`
when `Get` finds none. -/
def resolvedContentType (resp : Response) : String :=
  if resp.Header.Get "Content-Type" = "" then "image/jpeg" else resp.Header.Get "Content-Type"

/-- The header map as the proxy has set it when the copy begins. -/
def imageHeader (contentType : String) : Header :=
  (((Header.empty.Set "Content-Type" contentType).Set "Cache-Control"
    "no-cache, no-store, must-revalidate").Set "Pragma" "no-cache").Set "Expires" "0"

/-- The header map `http.Error` leaves on a writer that had none set. -/
def errorHeader : Header :=
  ⟨[("Content-Type", ["text/plain; charset=utf-8"]), ("X-Content-Type-Options", ["nosniff"])]⟩

/-- What a connection with the given room takes of `p`. -/
def taken (room : Option Nat) (p : List Byte) : List Byte :=
  match room with
  | none => p
  | some k => p.take k

/-- The writer as the proxy has prepared it when the copy begins. -/
def prepared (w : ResponseWriter) (contentType : String) : ResponseWriter :=
  (((w.SetHeader "Content-Type" contentType).SetHeader "Cache-Control"
    "no-cache, no-store, must-revalidate").SetHeader "Pragma" "no-cache").SetHeader "Expires" "0"

/-- The header map as `serveHTML` has set it when the template runs. -/
def htmlHeader : Header := Header.empty.Set "Content-Type" "text/html; charset=utf-8"

/-- Text the executed template puts in front of the timestamp. -/
def pageHead : String := String.join [
  "\n",
  "<!DOCTYPE html>\n",
  "<html>\n",
  "<head>\n",
  "    <title>cat vibe checker</title>\n",
  "    <style>\n",
  "        body \x7b font-family: sans-serif; text-align: center; \x7d\n",
  "        img \x7b border: 1px solid #ccc; margin-top: 20px; \x7d\n",
  "    </style>\n",
  "</head>\n",
  "<body>\n",
  "\t<h1>This cat matches your vibe</h1>\n",
  "    <h2>Not feeling it?</h2>\n",
  "    <p>Refresh this page to try again</p>\n",
  "    \n",
  "    <img src=\"/image-from-api?t="]

/-- Text the executed template puts behind the timestamp. -/
def pageTail : String := String.join [
  "\" alt=\"Dynamic API Image\" />\n",
  "    <p><a href=\"/\">Reload Page</a></p>\n",
  "</body>\n",
  "</html>\n"]

/-- The page for a clock reading. -/
def pageBody (now : Int) : List Byte :=
  bytesOf pageHead ++ (fmtInt now).map Char.toNat ++ bytesOf pageTail

/-- The image source for a clock reading. -/
def imgSrc (now : Int) : List Byte :=
  bytesOf "/image-from-api?t=" ++ (fmtInt now).map Char.toNat

/-- Everything the nodes render to, in order. -/
def renderAll (d : PageData) (ns : List Node) : List Char :=
  ns.flatMap fun n =>
    match renderNode d n with
    | Except.ok out => out
    | Except.error _ => []

/-- Value of a run of decimal digits. -/
def digitsValue (l : List Char) : Nat :=
  l.foldl (fun a c => 10 * a + (c.toNat - 48)) 0

/-- Value of a decimal numeral with an optional leading minus sign. -/
def decimalValue : List Char → Int
  | [] => 0
  | c :: l => if c = '-' then - (digitsValue l : Int) else (digitsValue (c :: l) : Int)

/-- A character `%d` can produce: a decimal digit or the minus sign. -/
def plainChar (c : Char) : Prop := (48 ≤ c.toNat ∧ c.toNat ≤ 57) ∨ c = '-'

/-- The characters `%d` can produce, listed. -/
def plainChars : List Char := ['0', '1', '2', '3', '4', '5', '6', '7', '8', '9', '-']

/-! ## Concrete inputs -/

/-- An upstream answering 200 with a PNG content type and a four-byte body in
two chunks. -/
def pngWorld : World :=
  { now := 0,
    upstream := GetResult.success
      { StatusCode := 200, Status := "200 OK",
        Header := ⟨[("Content-Type", ["image/png"])]⟩,
        Body := { chunks := [[137, 80], [78, 71]], readErr := none, closed := 0 } },
    gets := 0, log := [] }

/-- A 200 response without any header and a three-byte body. -/
def bareResponse : Response :=
  { StatusCode := 200, Status := "200 OK", Header := Header.empty,
    Body := { chunks := [[255, 216, 255]], readErr := none, closed := 0 } }

/-- An upstream answering with `bareResponse`. -/
def bareWorld : World :=
  { now := 0, upstream := GetResult.success bareResponse, gets := 0, log := [] }

/-- An upstream answering 200 whose body breaks off with a read error after two
bytes. -/
def tornWorld : World :=
  { now := 0,
    upstream := GetResult.success
      { StatusCode := 200, Status := "200 OK",
        Header := ⟨[("Content-Type", ["image/png"])]⟩,
        Body := { chunks := [[137, 80]], readErr := some "unexpected EOF", closed := 0 } },
    gets := 0, log := [] }

/-- An upstream answering with the given status and body text. -/
def errWorld (code : Int) (status body : String) : World :=
  { now := 0,
    upstream := GetResult.success
      { StatusCode := code, Status := status,
        Header := ⟨[("Content-Type", ["text/html"])]⟩,
        Body := { chunks := [bytesOf body], readErr := none, closed := 0 } },
    gets := 0, log := [] }

/-- A world in which the clock reads the given number of nanoseconds. -/
def clockWorld (now : Int) : World :=
  { now := now, upstream := GetResult.failure "", gets := 0, log := [] }

/-! ## Facts about the response writer -/

theorem response_WriteHeader_OK (w : ResponseWriter) :
    (w.WriteHeader StatusOK).response = w.response := by
  unfold ResponseWriter.response ResponseWriter.WriteHeader
  cases h : w.wroteHeader <;> simp [h]

theorem Write_spec (w : ResponseWriter) (p : List Byte) :
    (w.Write p).1.response.status = w.response.status ∧
    (w.Write p).1.response.header = w.response.header ∧
    (w.Write p).1.wroteHeader = true ∧
    (∃ q, q <+: p ∧ (w.Write p).1.body = w.body ++ q) ∧
    ((w.Write p).2.2 = none → (w.Write p).1.body = w.body ++ p ∧ (w.Write p).2.1 = p.length) := by
  unfold ResponseWriter.Write ResponseWriter.response ResponseWriter.WriteHeader
  cases hw : w.wroteHeader <;> cases hr : w.room <;> simp [hw, hr] <;> split_ifs <;> simp_all
  all_goals exact List.take_prefix _ _

/-- The copy loop never touches the committed status or headers, delivers an
initial segment of the stream, and delivers all of it when it ends without
error. -/
theorem copyLoop_spec (cs : List (List Byte)) (re : Option String) : ∀ w : ResponseWriter,
    (copyLoop cs re w).1.response.status = w.response.status ∧
    (copyLoop cs re w).1.response.header = w.response.header ∧
    (∃ q, q <+: cs.flatten ∧ (copyLoop cs re w).1.body = w.body ++ q) ∧
    ((copyLoop cs re w).2.2 = none →
      re = none ∧ (copyLoop cs re w).1.body = w.body ++ cs.flatten) ∧
    (re ≠ none → (copyLoop cs re w).2.2 ≠ none) := by
  induction cs with
  | nil =>
    intro w
    simp [copyLoop]
  | cons c cs ih =>
    intro w
    by_cases hc : c.length = 0
    · have hc' : c = [] := List.length_eq_zero.mp hc
      subst hc'
      simpa [copyLoop] using ih w
    · obtain ⟨hs, hh, _, ⟨q, hq, hb⟩, hok⟩ := Write_spec w c
      rcases hW : w.Write c with ⟨w1, nw, e⟩
      rw [hW] at hs hh hb hok
      simp only at hs hh hb hok
      cases e with
      | some ew =>
        simp only [copyLoop, hc, if_false, hW]
        refine ⟨hs, hh, ⟨q, ?_, hb⟩, by simp, by simp⟩
        exact hq.trans (by simp)
      | none =>
        obtain ⟨hb1, hn⟩ := hok rfl
        obtain ⟨is, ih', ⟨q2, hq2, hb2⟩, iok, ierr⟩ := ih w1
        simp only [copyLoop, hc, if_false, hW, hn, ne_eq, not_true_eq_false]
        refine ⟨is.trans hs, ih'.trans hh, ⟨c ++ q2, ?_, ?_⟩, ?_, ierr⟩
        · simpa using (List.prefix_append_right_inj c).mpr hq2
        · rw [hb2, hb1, List.append_assoc]
        · intro h
          obtain ⟨h1, h2⟩ := iok h
          exact ⟨h1, by rw [h2, hb1]; simp⟩

/-- A connection without limit takes every write whole. -/
theorem Write_unlimited (w : ResponseWriter) (p : List Byte) (h : w.room = none) :
    (w.Write p).2.2 = none ∧ (w.Write p).2.1 = p.length ∧ (w.Write p).1.room = none := by
  unfold ResponseWriter.Write ResponseWriter.WriteHeader
  cases hw : w.wroteHeader <;> simp [hw, h] <;> split_ifs <;> simp_all

/-- On a connection without limit the copy of a stream that ends with `io.EOF`
returns no error. -/
theorem copyLoop_unlimited (cs : List (List Byte)) : ∀ w : ResponseWriter, w.room = none →
    (copyLoop cs none w).2.2 = none := by
  induction cs with
  | nil => intro w _; rfl
  | cons c cs ih =>
    intro w hw
    by_cases hc : c.length = 0
    · simpa [copyLoop, hc] using ih w hw
    · obtain ⟨he, hn, hr⟩ := Write_unlimited w c hw
      rcases hW : w.Write c with ⟨w1, nw, e⟩
      rw [hW] at he hn hr
      simp only at he hn hr
      subst he
      simp only [copyLoop, hc, if_false, hW, hn, ne_eq, not_true_eq_false]
      exact ih w1 hr

/-! ## Facts about the three paths of the proxy -/

theorem imageHeader_entries (ct : String) :
    imageHeader ct = ⟨[("Content-Type", [ct]),
      ("Cache-Control", ["no-cache, no-store, must-revalidate"]),
      ("Pragma", ["no-cache"]), ("Expires", ["0"])]⟩ := by
  simp [imageHeader, Header.Set, Header.Del, Header.empty]

theorem imageHeader_Get (ct : String) :
    (imageHeader ct).Get "Content-Type" = ct ∧
    (imageHeader ct).Get "Cache-Control" = "no-cache, no-store, must-revalidate" := by
  rw [imageHeader_entries]
  simp [Header.Get, List.lookup]

theorem Error_fresh (room : Option Nat) (werr msg : String) (code : Int) :
    (Error (ResponseWriter.fresh room werr) msg code).response =
      { status := code, header := errorHeader, body := taken room (bytesOf (msg ++ "\n")) } := by
  have hh : ((Header.empty.Del "Content-Length").Set "Content-Type"
      "text/plain; charset=utf-8").Set "X-Content-Type-Options" "nosniff" = errorHeader := by
    simp [errorHeader, Header.Set, Header.Del, Header.empty]
  cases room with
  | none =>
    simp [Error, ResponseWriter.fresh, ResponseWriter.DelHeader, ResponseWriter.SetHeader,
      ResponseWriter.WriteHeader, ResponseWriter.Write, ResponseWriter.response, taken, hh]
    split_ifs <;> simp_all
  | some k =>
    simp [Error, ResponseWriter.fresh, ResponseWriter.DelHeader, ResponseWriter.SetHeader,
      ResponseWriter.WriteHeader, ResponseWriter.Write, ResponseWriter.response, taken, hh]
    split_ifs <;> simp_all

theorem prepared_fresh (room : Option Nat) (werr ct : String) :
    (prepared (ResponseWriter.fresh room werr) ct).response =
      { status := 200, header := imageHeader ct, body := [] } ∧
    (prepared (ResponseWriter.fresh room werr) ct).body = [] := by
  simp [prepared, ResponseWriter.fresh, ResponseWriter.SetHeader, ResponseWriter.response,
    ResponseWriter.WriteHeader, imageHeader, StatusOK]

/-- The transport-failure path of the proxy. -/
theorem serveImage_failure (s : World) (w : ResponseWriter) (e : String)
    (hget : s.upstream = GetResult.failure e) :
    serveImageFromAPI s w =
      { w := Error w "Failed to fetch image from source" StatusBadGateway,
        world := { s with gets := s.gets + 1, log := s.log ++
          ["Request received for /image-from-api",
           "Failed to get image from external API: " ++ e] },
        body := none, copyErr := none } := by
  simp [serveImageFromAPI, World.httpGet, World.logMsg, hget]

/-- The non-200 path of the proxy. -/
theorem serveImage_bad_status (s : World) (w : ResponseWriter) (resp : Response)
    (hget : s.upstream = GetResult.success resp) (hst : resp.StatusCode ≠ 200) :
    serveImageFromAPI s w =
      { w := Error w "Image source API returned an error" StatusBadGateway,
        world := { s with gets := s.gets + 1, log := s.log ++
          ["Request received for /image-from-api",
           "External API request failed with status code: " ++
             String.mk (fmtInt resp.StatusCode) ++ " " ++ resp.Status] },
        body := some resp.Body.Close, copyErr := none } := by
  simp [serveImageFromAPI, serveImageWithResp, World.httpGet, World.logMsg, hget, StatusOK, hst]

/-- The 200 path of the proxy, in terms of the copy loop. -/
theorem serveImage_ok (s : World) (w : ResponseWriter) (resp : Response)
    (hget : s.upstream = GetResult.success resp) (hst : resp.StatusCode = 200) :
    serveImageFromAPI s w =
      { w := (copyLoop resp.Body.chunks resp.Body.readErr
            (prepared w (resolvedContentType resp))).1,
        world := { s with gets := s.gets + 1, log := s.log ++
          ["Request received for /image-from-api"] ++
          (if resp.Header.Get "Content-Type" = "" then
            ["Warning: External API did not provide Content-Type. Assuming image/jpeg."]
           else []) ++
          (match (copyLoop resp.Body.chunks resp.Body.readErr
              (prepared w (resolvedContentType resp))).2.2 with
            | some e => ["Failed to stream image data to client: " ++ e]
            | none => []) ++
          ["Successfully served image with Content-Type: " ++ resolvedContentType resp] },
        body := some (Body.mk (copyLoop resp.Body.chunks resp.Body.readErr
            (prepared w (resolvedContentType resp))).2.1 resp.Body.readErr
            (resp.Body.closed + 1)),
        copyErr := (copyLoop resp.Body.chunks resp.Body.readErr
            (prepared w (resolvedContentType resp))).2.2 } := by
  by_cases hct : resp.Header.Get "Content-Type" = ""
  · simp [serveImageFromAPI, serveImageWithResp, World.httpGet, World.logMsg, hget, StatusOK, hst,
      ioCopy, prepared, resolvedContentType, hct, Body.Close]
    cases (copyLoop resp.Body.chunks resp.Body.readErr _).2.2 <;> simp
  · simp [serveImageFromAPI, serveImageWithResp, World.httpGet, World.logMsg, hget, StatusOK, hst,
      ioCopy, prepared, resolvedContentType, hct, Body.Close]
    cases (copyLoop resp.Body.chunks resp.Body.readErr _).2.2 <;> simp

/-! ## The image proxy: the claims -/

/-- The reply of the proxy on its 200 path: status 200, the prepared headers, an
initial segment of the stream, and all of it when the copy returns no error. -/
theorem serveImage_ok_response (s : World) (room : Option Nat) (werr : String) (resp : Response)
    (hget : s.upstream = GetResult.success resp) (hst : resp.StatusCode = 200) :
    (serveImageFromAPI s (ResponseWriter.fresh room werr)).w.response.status = 200 ∧
    (serveImageFromAPI s (ResponseWriter.fresh room werr)).w.response.header =
      imageHeader (resolvedContentType resp) ∧
    (serveImageFromAPI s (ResponseWriter.fresh room werr)).w.response.body <+: resp.Body.bytes ∧
    ((serveImageFromAPI s (ResponseWriter.fresh room werr)).copyErr = none →
      (serveImageFromAPI s (ResponseWriter.fresh room werr)).w.response.body = resp.Body.bytes) := by
  rw [serveImage_ok s _ resp hget hst]
  obtain ⟨h1, h2, ⟨q, hq, hb⟩, hok, _⟩ := copyLoop_spec resp.Body.chunks resp.Body.readErr
    (prepared (ResponseWriter.fresh room werr) (resolvedContentType resp))
  obtain ⟨hp, hpb⟩ := prepared_fresh room werr (resolvedContentType resp)
  rw [hp] at h1 h2
  rw [hpb] at hb hok
  have hbody : ∀ w : ResponseWriter, w.response.body = w.body := fun w => by
    unfold ResponseWriter.response ResponseWriter.WriteHeader
    cases h : w.wroteHeader <;> simp [h]
  simp only [hbody]
  refine ⟨h1, h2, ?_, ?_⟩
  · rw [hb]; simpa [Body.bytes] using hq
  · intro h
    simpa [Body.bytes] using (hok h).2

/-- Claim C1.  When the GET succeeds with status 200, body `B` and a non-empty
`Content-Type` value `C`, and the copy returns no error, the reply has status
200, `Content-Type` equal to `C` whatever `B` is, and body equal to `B`. -/
theorem serveImageFromAPI_relays_ok (s : World) (room : Option Nat) (werr : String)
    (resp : Response) (C : String)
    (hget : s.upstream = GetResult.success resp) (hst : resp.StatusCode = 200)
    (hct : resp.Header.Get "Content-Type" = C) (hC : C ≠ "")
    (hcopy : (serveImageFromAPI s (ResponseWriter.fresh room werr)).copyErr = none) :
    (serveImageFromAPI s (ResponseWriter.fresh room werr)).w.response.status = 200 ∧
    (serveImageFromAPI s (ResponseWriter.fresh room werr)).w.response.header.Get
      "Content-Type" = C ∧
    (serveImageFromAPI s (ResponseWriter.fresh room werr)).w.response.body = resp.Body.bytes := by
  obtain ⟨h1, h2, _, h4⟩ := serveImage_ok_response s room werr resp hget hst
  have hr : resolvedContentType resp = C := by
    simp [resolvedContentType, hct, hC]
  refine ⟨h1, ?_, h4 hcopy⟩
  rw [h2, hr]
  exact (imageHeader_Get C).1

/-- Claim C2, as amended.  When the upstream answers 200 without a
`Content-Type` (so that `Get` returns the empty string), the reply has
`Content-Type` exactly `image/jpeg` and status 200 whatever becomes of the
copy; its body is the upstream body when the copy returns no error, as it does
on a connection without limit when the stream ends with `io.EOF`, and an
initial segment of the upstream body otherwise. -/
theorem serveImageFromAPI_defaults_to_jpeg (s : World) (room : Option Nat) (werr : String)
    (resp : Response)
    (hget : s.upstream = GetResult.success resp) (hst : resp.StatusCode = 200)
    (hct : resp.Header.Get "Content-Type" = "") :
    (serveImageFromAPI s (ResponseWriter.fresh room werr)).w.response.header.Get
      "Content-Type" = "image/jpeg" ∧
    (serveImageFromAPI s (ResponseWriter.fresh room werr)).w.response.status = 200 ∧
    (serveImageFromAPI s (ResponseWriter.fresh room werr)).w.response.body <+: resp.Body.bytes ∧
    ((serveImageFromAPI s (ResponseWriter.fresh room werr)).copyErr = none →
      (serveImageFromAPI s (ResponseWriter.fresh room werr)).w.response.body =
        resp.Body.bytes) ∧
    (room = none → resp.Body.readErr = none →
      (serveImageFromAPI s (ResponseWriter.fresh room werr)).copyErr = none ∧
      (serveImageFromAPI s (ResponseWriter.fresh room werr)).w.response.body =
        resp.Body.bytes) := by
  obtain ⟨h1, h2, h3, h4⟩ := serveImage_ok_response s room werr resp hget hst
  have hr : resolvedContentType resp = "image/jpeg" := by
    simp [resolvedContentType, hct]
  refine ⟨?_, h1, h3, h4, ?_⟩
  · rw [h2, hr]
    exact (imageHeader_Get _).1
  · intro hroom hre
    have hc : (serveImageFromAPI s (ResponseWriter.fresh room werr)).copyErr = none := by
      rw [serveImage_ok s _ resp hget hst, hre]
      exact copyLoop_unlimited _ _ (by simp [prepared, ResponseWriter.SetHeader,
        ResponseWriter.fresh, hroom])
    exact ⟨hc, h4 hc⟩

/-- Claim C2, as stated, fails: the upstream answers 200 without a `Content-Type`
and a three-byte body, the client connection takes one byte and breaks; the
reply has status 200 and `image/jpeg`, but its body is that one byte, not the
upstream body. -/
theorem serveImageFromAPI_jpeg_body_cut_short :
    bareWorld.upstream = GetResult.success bareResponse ∧
    bareResponse.StatusCode = 200 ∧
    bareResponse.Header.Has "Content-Type" = false ∧
    bareResponse.Body.bytes = [255, 216, 255] ∧
    (serveImageFromAPI bareWorld
      (ResponseWriter.fresh (some 1) "write: broken pipe")).w.response.status = 200 ∧
    (serveImageFromAPI bareWorld
      (ResponseWriter.fresh (some 1) "write: broken pipe")).w.response.header.Get
        "Content-Type" = "image/jpeg" ∧
    (serveImageFromAPI bareWorld
      (ResponseWriter.fresh (some 1) "write: broken pipe")).w.response.body = [255] ∧
    (serveImageFromAPI bareWorld
      (ResponseWriter.fresh (some 1) "write: broken pipe")).w.response.body ≠
        bareResponse.Body.bytes := by
  decide

/-- Claim C3.  The reply of the proxy has status 502 exactly when the GET failed
or the upstream status is not 200, and status 200 exactly when the upstream
status is 200; it never has any other status. -/
theorem serveImageFromAPI_status (s : World) (room : Option Nat) (werr : String) :
    ((serveImageFromAPI s (ResponseWriter.fresh room werr)).w.response.status = 502 ↔
      ((∃ e, s.upstream = GetResult.failure e) ∨
        ∃ resp, s.upstream = GetResult.success resp ∧ resp.StatusCode ≠ 200)) ∧
    ((serveImageFromAPI s (ResponseWriter.fresh room werr)).w.response.status = 200 ↔
      ∃ resp, s.upstream = GetResult.success resp ∧ resp.StatusCode = 200) ∧
    ((serveImageFromAPI s (ResponseWriter.fresh room werr)).w.response.status = 502 ∨
      (serveImageFromAPI s (ResponseWriter.fresh room werr)).w.response.status = 200) := by
  cases hget : s.upstream with
  | failure e =>
    rw [serveImage_failure s _ e hget]
    simp [Error_fresh, StatusBadGateway]
  | success resp =>
    by_cases hst : resp.StatusCode = 200
    · have h := (serveImage_ok_response s room werr resp hget hst).1
      simp [h, hst]
    · rw [serveImage_bad_status s _ resp hget hst]
      simp [Error_fresh, StatusBadGateway, hst]

/-- Claim C4.  Two upstream responses whose status codes both differ from 200
give the same reply to the same client, whatever their status codes, headers
and bodies are: status 502, the two headers of `http.Error`, and the fixed
message (as much of it as the connection takes), in which nothing of the
upstream response occurs. -/
theorem serveImageFromAPI_bad_status_reply (s₁ s₂ : World) (room : Option Nat)
    (werr₁ werr₂ : String) (r₁ r₂ : Response)
    (h₁ : s₁.upstream = GetResult.success r₁) (h₂ : s₂.upstream = GetResult.success r₂)
    (hs₁ : r₁.StatusCode ≠ 200) (hs₂ : r₂.StatusCode ≠ 200) :
    (serveImageFromAPI s₁ (ResponseWriter.fresh room werr₁)).w.response =
      (serveImageFromAPI s₂ (ResponseWriter.fresh room werr₂)).w.response ∧
    (serveImageFromAPI s₁ (ResponseWriter.fresh room werr₁)).w.response =
      { status := 502, header := errorHeader,
        body := taken room (bytesOf "Image source API returned an error\n") } := by
  rw [serveImage_bad_status s₁ _ r₁ h₁ hs₁, serveImage_bad_status s₂ _ r₂ h₂ hs₂]
  simp only [Error_fresh, StatusBadGateway]
  exact ⟨trivial, rfl⟩

/-- Claim C5, as amended.  The reply of the proxy carries `Cache-Control:
no-cache, no-store, must-revalidate` exactly when the upstream answered 200; on
the transport-failure path and on the non-200 path the reply carries no
`Cache-Control` header at all. -/
theorem serveImageFromAPI_cache_control (s : World) (room : Option Nat) (werr : String) :
    ((serveImageFromAPI s (ResponseWriter.fresh room werr)).w.response.header.Get
        "Cache-Control" = "no-cache, no-store, must-revalidate" ↔
      ∃ resp, s.upstream = GetResult.success resp ∧ resp.StatusCode = 200) ∧
    ((serveImageFromAPI s (ResponseWriter.fresh room werr)).w.response.header.Has
        "Cache-Control" = false ↔
      ((∃ e, s.upstream = GetResult.failure e) ∨
        ∃ resp, s.upstream = GetResult.success resp ∧ resp.StatusCode ≠ 200)) := by
  have herr : errorHeader.Get "Cache-Control" = "" ∧ errorHeader.Has "Cache-Control" = false := by
    simp [errorHeader, Header.Get, Header.Has, List.lookup]
  cases hget : s.upstream with
  | failure e =>
    rw [serveImage_failure s _ e hget]
    simp [Error_fresh, herr]
  | success resp =>
    by_cases hst : resp.StatusCode = 200
    · have h := (serveImage_ok_response s room werr resp hget hst).2.1
      rw [h]
      refine ⟨by simp [(imageHeader_Get _).2, hst], ?_⟩
      rw [imageHeader_entries]
      simp [Header.Has, List.lookup, hst]
    · rw [serveImage_bad_status s _ resp hget hst]
      simp [Error_fresh, herr, hst]

/-- Claim C5, as stated, fails: when the GET fails at the transport level the
502 reply written through `http.Error` has no `Cache-Control` header. -/
theorem serveImageFromAPI_failure_lacks_cache_control :
    (serveImageFromAPI
      { now := 0, upstream := GetResult.failure "dial tcp: connection refused",
        gets := 0, log := [] }
      (ResponseWriter.fresh none "")).w.response =
      { status := 502, header := errorHeader,
        body := bytesOf "Failed to fetch image from source\n" } ∧
    errorHeader.Has "Cache-Control" = false ∧
    errorHeader.Get "Cache-Control" ≠ "no-cache, no-store, must-revalidate" := by
  refine ⟨?_, ?_, ?_⟩
  · rw [serveImage_failure _ _ _ rfl]
    simp only [Error_fresh, StatusBadGateway]
    rfl
  · simp [errorHeader, Header.Has, List.lookup]
  · simp [errorHeader, Header.Get, List.lookup]

/-- Claim C7.  When the upstream answers 200 and the copy fails (a client write
fails or an upstream read fails), the handler writes no error reply: the status
is 200, the headers are exactly the ones set before the copy began, and what
the client got is an initial segment of the stream, hence of any body `B` the
stream is an initial segment of. -/
theorem serveImageFromAPI_copy_failure (s : World) (room : Option Nat) (werr : String)
    (resp : Response) (e : String)
    (hget : s.upstream = GetResult.success resp) (hst : resp.StatusCode = 200)
    (_hcopy : (serveImageFromAPI s (ResponseWriter.fresh room werr)).copyErr = some e) :
    (serveImageFromAPI s (ResponseWriter.fresh room werr)).w.response.status = 200 ∧
    (serveImageFromAPI s (ResponseWriter.fresh room werr)).w.response.header =
      imageHeader (resolvedContentType resp) ∧
    (serveImageFromAPI s (ResponseWriter.fresh room werr)).w.response.body <+: resp.Body.bytes ∧
    (∀ B : List Byte, resp.Body.bytes <+: B →
      (serveImageFromAPI s (ResponseWriter.fresh room werr)).w.response.body <+: B) := by
  obtain ⟨h1, h2, h3, _⟩ := serveImage_ok_response s room werr resp hget hst
  exact ⟨h1, h2, h3, fun B hB => h3.trans hB⟩

/-- Claim C9.  Every invocation of the proxy issues exactly one GET, also when it
fails; when the GET succeeds the handler returns with the upstream body closed
exactly once more than it was (once, for a body handed over open), on the
non-200 path and on the 200 path whether the copy succeeds or fails; when the
GET fails there is no body to close. -/
theorem serveImageFromAPI_one_get_one_close (s : World) (w : ResponseWriter) :
    (serveImageFromAPI s w).world.gets = s.gets + 1 ∧
    (∀ resp, s.upstream = GetResult.success resp →
      ∃ b, (serveImageFromAPI s w).body = some b ∧ b.closed = resp.Body.closed + 1) ∧
    (∀ e, s.upstream = GetResult.failure e → (serveImageFromAPI s w).body = none) := by
  cases hget : s.upstream with
  | failure e =>
    rw [serveImage_failure s w e hget]
    simp
  | success resp =>
    by_cases hst : resp.StatusCode = 200
    · rw [serveImage_ok s w resp hget hst]
      simp
    · rw [serveImage_bad_status s w resp hget hst]
      simp [Body.Close]

/-- Claim C10.  When the upstream answers 200 and the copy fails with error `e`,
the log grows by the request line, the fallback warning when there was no
`Content-Type`, then `Failed to stream image data to client: e` and after it
still `Successfully served image with Content-Type:` with the resolved type;
and whether or not the copy failed, that success line is the last line
logged. -/
theorem serveImageFromAPI_logs_success_after_failure (s : World) (room : Option Nat)
    (werr : String) (resp : Response) (e : String)
    (hget : s.upstream = GetResult.success resp) (hst : resp.StatusCode = 200)
    (hcopy : (serveImageFromAPI s (ResponseWriter.fresh room werr)).copyErr = some e) :
    (serveImageFromAPI s (ResponseWriter.fresh room werr)).world.log =
      s.log ++ ["Request received for /image-from-api"] ++
      (if resp.Header.Get "Content-Type" = "" then
        ["Warning: External API did not provide Content-Type. Assuming image/jpeg."]
       else []) ++
      ["Failed to stream image data to client: " ++ e,
       "Successfully served image with Content-Type: " ++ resolvedContentType resp] ∧
    (∀ (room₂ : Option Nat) (werr₂ : String),
      (serveImageFromAPI s (ResponseWriter.fresh room₂ werr₂)).world.log.getLast? =
        some ("Successfully served image with Content-Type: " ++ resolvedContentType resp)) := by
  constructor
  · rw [serveImage_ok s _ resp hget hst] at hcopy ⊢
    simp only at hcopy
    simp only [hcopy]
    simp
  · intro room₂ werr₂
    rw [serveImage_ok s _ resp hget hst]
    exact List.getLast?_concat _

/-! ### Concrete runs of the proxy -/

theorem serveImageFromAPI_relays_ok_witness :
    (serveImageFromAPI pngWorld (ResponseWriter.fresh none "")).w.response.status = 200 ∧
    (serveImageFromAPI pngWorld (ResponseWriter.fresh none "")).w.response.header.Get
      "Content-Type" = "image/png" ∧
    (serveImageFromAPI pngWorld (ResponseWriter.fresh none "")).w.response.body =
      [137, 80, 78, 71] :=
  serveImageFromAPI_relays_ok pngWorld none "" _ "image/png" rfl rfl (by decide) (by decide)
    (by decide)

theorem serveImageFromAPI_defaults_to_jpeg_witness :
    (serveImageFromAPI bareWorld (ResponseWriter.fresh none "")).w.response.header.Get
      "Content-Type" = "image/jpeg" ∧
    (serveImageFromAPI bareWorld (ResponseWriter.fresh none "")).w.response.status = 200 ∧
    (serveImageFromAPI bareWorld (ResponseWriter.fresh none "")).copyErr = none ∧
    (serveImageFromAPI bareWorld (ResponseWriter.fresh none "")).w.response.body =
      [255, 216, 255] :=
  have h := serveImageFromAPI_defaults_to_jpeg bareWorld none "" bareResponse rfl rfl
    (by decide)
  ⟨h.1, h.2.1, (h.2.2.2.2 rfl rfl).1, h.2.2.2.1 (h.2.2.2.2 rfl rfl).1⟩

theorem serveImageFromAPI_bad_status_reply_witness :
    (serveImageFromAPI (errWorld 404 "404 Not Found" "no such cat")
        (ResponseWriter.fresh none "")).w.response =
      (serveImageFromAPI (errWorld 500 "500 Internal Server Error" "stack trace")
        (ResponseWriter.fresh none "")).w.response ∧
    (serveImageFromAPI (errWorld 404 "404 Not Found" "no such cat")
        (ResponseWriter.fresh none "")).w.response =
      { status := 502, header := errorHeader,
        body := taken none (bytesOf "Image source API returned an error\n") } :=
  serveImageFromAPI_bad_status_reply (errWorld 404 "404 Not Found" "no such cat")
    (errWorld 500 "500 Internal Server Error" "stack trace") none "" "" _ _ rfl rfl
    (by decide) (by decide)

theorem serveImageFromAPI_copy_failure_witness :
    ((serveImageFromAPI pngWorld (ResponseWriter.fresh (some 3) "write: broken pipe")).copyErr =
      some "write: broken pipe" ∧
    (serveImageFromAPI pngWorld
      (ResponseWriter.fresh (some 3) "write: broken pipe")).w.response.status = 200 ∧
    (serveImageFromAPI pngWorld
      (ResponseWriter.fresh (some 3) "write: broken pipe")).w.response.header =
      imageHeader "image/png" ∧
    (serveImageFromAPI pngWorld
      (ResponseWriter.fresh (some 3) "write: broken pipe")).w.response.body <+:
      [137, 80, 78, 71]) ∧
    ((serveImageFromAPI tornWorld (ResponseWriter.fresh none "")).copyErr =
      some "unexpected EOF" ∧
    (serveImageFromAPI tornWorld (ResponseWriter.fresh none "")).w.response.status = 200 ∧
    (serveImageFromAPI tornWorld (ResponseWriter.fresh none "")).w.response.header =
      imageHeader "image/png" ∧
    (serveImageFromAPI tornWorld (ResponseWriter.fresh none "")).w.response.body <+:
      [137, 80]) :=
  have h₁ := serveImageFromAPI_copy_failure pngWorld (some 3) "write: broken pipe" _
    "write: broken pipe" rfl rfl (by decide)
  have h₂ := serveImageFromAPI_copy_failure tornWorld none "" _ "unexpected EOF" rfl rfl
    (by decide)
  ⟨⟨by decide, h₁.1, h₁.2.1, h₁.2.2.1⟩, ⟨by decide, h₂.1, h₂.2.1, h₂.2.2.1⟩⟩

theorem serveImageFromAPI_one_get_one_close_witness :
    (serveImageFromAPI pngWorld (ResponseWriter.fresh none "")).world.gets = 1 ∧
    (∃ b, (serveImageFromAPI pngWorld (ResponseWriter.fresh none "")).body = some b ∧
      b.closed = 1) :=
  ⟨(serveImageFromAPI_one_get_one_close pngWorld (ResponseWriter.fresh none "")).1,
   (serveImageFromAPI_one_get_one_close pngWorld (ResponseWriter.fresh none "")).2.1 _ rfl⟩

theorem serveImageFromAPI_logs_success_after_failure_witness :
    (serveImageFromAPI pngWorld
      (ResponseWriter.fresh (some 3) "write: broken pipe")).world.log =
      ["Request received for /image-from-api",
       "Failed to stream image data to client: write: broken pipe",
       "Successfully served image with Content-Type: image/png"] :=
  (serveImageFromAPI_logs_success_after_failure pngWorld (some 3) "write: broken pipe" _
    "write: broken pipe" rfl rfl (by decide)).1

/-! ## Facts about the parsed template -/

/-- The template parses into the text in front of the action, the action, and
the text behind it; the escaper has dropped the comment from the first. -/
theorem tmpl_nodes :
    tmpl = [Node.text pageHead.toList, Node.action ".Timestamp".toList,
      Node.text pageTail.toList] := by
  decide

theorem countOcc_pageHead : countOcc imgTag (bytesOf pageHead) = 1 := by
  decide

theorem countOcc_pageTail : countOcc imgTag (bytesOf pageTail) = 0 := by
  decide

/-! ## Facts about `%d` -/

theorem digitChar_toNat (d : Nat) (hd : d < 10) :
    (Nat.digitChar d).toNat = d + 48 := by
  interval_cases d <;> rfl

theorem fmtDigits_value (fuel : Nat) : ∀ (n : Nat) (acc : List Char), n < fuel →
    (fmtDigits fuel n acc).foldl (fun a c => 10 * a + (c.toNat - 48)) 0 =
      acc.foldl (fun a c => 10 * a + (c.toNat - 48)) n := by
  induction fuel with
  | zero => intro n acc h; omega
  | succ fuel ih =>
    intro n acc h
    have hd : (Nat.digitChar (n % 10)).toNat - 48 = n % 10 := by
      rw [digitChar_toNat _ (Nat.mod_lt _ (by decide))]; omega
    unfold fmtDigits
    split_ifs with h0
    · have hn : n % 10 = n := Nat.mod_eq_of_lt (by omega)
      rw [hn] at hd ⊢
      simp [List.foldl, hd]
    · rw [ih (n / 10) _ (by omega)]
      simp only [List.foldl, hd]
      congr 1
      omega

theorem digitsValue_fmtNat (n : Nat) : digitsValue (fmtNat n) = n := by
  unfold digitsValue fmtNat
  rw [fmtDigits_value (n + 1) n [] (by omega)]
  rfl

theorem fmtDigits_plain (fuel : Nat) : ∀ (n : Nat) (acc : List Char),
    (∀ c ∈ acc, 48 ≤ c.toNat ∧ c.toNat ≤ 57) →
    ∀ c ∈ fmtDigits fuel n acc, 48 ≤ c.toNat ∧ c.toNat ≤ 57 := by
  induction fuel with
  | zero => intro n acc h; simpa [fmtDigits] using h
  | succ fuel ih =>
    intro n acc h
    have hd : 48 ≤ (Nat.digitChar (n % 10)).toNat ∧ (Nat.digitChar (n % 10)).toNat ≤ 57 := by
      have := Nat.mod_lt n (show 10 > 0 by decide)
      rw [digitChar_toNat _ this]; omega
    have hacc : ∀ c ∈ Nat.digitChar (n % 10) :: acc, 48 ≤ c.toNat ∧ c.toNat ≤ 57 := by
      intro c hc
      rcases List.mem_cons.mp hc with rfl | hc
      · exact hd
      · exact h c hc
    unfold fmtDigits
    split_ifs with h0
    · exact hacc
    · exact ih _ _ hacc

theorem fmtNat_digits (n : Nat) : ∀ c ∈ fmtNat n, 48 ≤ c.toNat ∧ c.toNat ≤ 57 :=
  fmtDigits_plain (n + 1) n [] (by simp)

theorem fmtNat_ne_nil (n : Nat) : fmtNat n ≠ [] := by
  unfold fmtNat fmtDigits
  split_ifs with h0
  · simp
  · intro h
    have hlen := congrArg List.length h
    have : ∀ (fuel m : Nat) (acc : List Char), acc.length ≤ (fmtDigits fuel m acc).length := by
      intro fuel
      induction fuel with
      | zero => intro m acc; simp [fmtDigits]
      | succ fuel ih =>
        intro m acc
        unfold fmtDigits
        split_ifs
        · simp
        · exact le_trans (by simp) (ih _ _)
    have := this n (n / 10) [Nat.digitChar (n % 10)]
    simp at hlen
    simp [hlen] at this

theorem fmtInt_plain (x : Int) : ∀ c ∈ fmtInt x, plainChar c := by
  intro c hc
  cases x with
  | ofNat n => exact Or.inl (fmtNat_digits n c hc)
  | negSucc n =>
    rcases List.mem_cons.mp hc with rfl | hc
    · exact Or.inr rfl
    · exact Or.inl (fmtNat_digits _ c hc)

/-- Reading `%d` output back as a decimal numeral gives the number: `fmtInt` is
the decimal rendering. -/
theorem decimalValue_fmtInt (x : Int) : decimalValue (fmtInt x) = x := by
  cases x with
  | ofNat n =>
    have hne := fmtNat_ne_nil n
    have hv := digitsValue_fmtNat n
    have hd := fmtNat_digits n
    show decimalValue (fmtNat n) = _
    cases hl : fmtNat n with
    | nil => exact absurd hl hne
    | cons c l =>
      rw [hl] at hv hd
      have hc : c ≠ '-' := by
        intro h
        have := hd c (List.mem_cons_self _ _)
        rw [h] at this
        revert this
        decide
      simp [decimalValue, hc, hv]
  | negSucc n =>
    simp only [fmtInt, decimalValue, if_true, digitsValue_fmtNat]
    rfl

theorem fmtInt_injective (x y : Int) (h : fmtInt x = fmtInt y) : x = y := by
  rw [← decimalValue_fmtInt x, ← decimalValue_fmtInt y, h]

theorem plainChar_mem (c : Char) (h : plainChar c) : c ∈ plainChars := by
  rcases h with ⟨h1, h2⟩ | rfl
  · have hc := Char.ofNat_toNat c
    generalize c.toNat = k at h1 h2 hc
    interval_cases k <;> subst hc <;> decide
  · decide

theorem plainChars_escape : ∀ c ∈ plainChars,
    attrEscaper (urlEscaper [c]) = [c] ∧ c.toNat ≠ 60 := by
  decide

/-- Both escapers leave `%d` output as it is. -/
theorem escapers_plain (l : List Char) (h : ∀ c ∈ l, plainChar c) :
    attrEscaper (urlEscaper l) = l := by
  induction l with
  | nil => rfl
  | cons c l ih =>
    have hc := (plainChars_escape c (plainChar_mem c (h c (List.mem_cons_self _ _)))).1
    have hl := ih (fun d hd => h d (List.mem_cons_of_mem _ hd))
    have hsplit : attrEscaper (urlEscaper (c :: l)) =
        attrEscaper (urlEscaper [c]) ++ attrEscaper (urlEscaper l) := by
      simp [attrEscaper, urlEscaper, List.flatMap_cons, List.flatMap_append]
    rw [hsplit, hc, hl]
    rfl

/-! ## Facts about counting occurrences -/

theorem isPrefixOf_append_of_length_le (pat : List Byte) : ∀ (l x : List Byte),
    pat.length ≤ l.length → pat.isPrefixOf (l ++ x) = pat.isPrefixOf l := by
  induction pat with
  | nil => intro l x _; simp
  | cons a pat ih =>
    intro l x h
    cases l with
    | nil => simp at h
    | cons b l =>
      have hl := ih l x (by simpa using h)
      simp only [List.cons_append, List.isPrefixOf, List.append_eq, hl]

theorem countOcc_skip (a : Byte) (pat : List Byte) (x : List Byte) : ∀ r : List Byte,
    a ∉ r → countOcc (a :: pat) (r ++ x) = countOcc (a :: pat) x := by
  intro r
  induction r with
  | nil => intro _; rfl
  | cons c r ih =>
    intro h
    have hc : a ≠ c := fun e => h (e ▸ List.mem_cons_self _ _)
    have hr : a ∉ r := fun e => h (List.mem_cons_of_mem _ e)
    simp only [List.cons_append, countOcc, List.isPrefixOf]
    simp [hc, ih hr]

theorem countOcc_append (a : Byte) (pat r x : List Byte) (hr : r.length = pat.length)
    (ha : a ∉ r) : ∀ h₀ : List Byte,
    countOcc (a :: pat) (h₀ ++ r ++ x) = countOcc (a :: pat) (h₀ ++ r) + countOcc (a :: pat) x := by
  intro h₀
  induction h₀ with
  | nil =>
    have h1 := countOcc_skip a pat x r ha
    have h2 := countOcc_skip a pat [] r ha
    simp only [List.append_nil] at h2
    simp only [List.nil_append, h1, h2]
    simp [countOcc]
  | cons c h₀ ih =>
    have hp : (a :: pat).isPrefixOf (c :: (h₀ ++ r) ++ x) = (a :: pat).isPrefixOf (c :: (h₀ ++ r)) :=
      isPrefixOf_append_of_length_le (a :: pat) (c :: (h₀ ++ r)) x (by simp [hr])
    simp only [List.cons_append] at hp ih ⊢
    simp only [countOcc, hp, ih]
    omega

/-- An image tag opens exactly once in the page, whatever `%d` output stands in
the place of the timestamp. -/
theorem countOcc_page (t : List Char) (ht : ∀ c ∈ t, plainChar c) :
    countOcc imgTag (bytesOf pageHead ++ t.map Char.toNat ++ bytesOf pageTail) = 1 := by
  have hsplit : bytesOf pageHead =
      (bytesOf pageHead).take ((bytesOf pageHead).length - 3) ++
        (bytesOf pageHead).drop ((bytesOf pageHead).length - 3) :=
    (List.take_append_drop _ _).symm
  have hlen : ((bytesOf pageHead).drop ((bytesOf pageHead).length - 3)).length = 3 := by
    decide
  have hno : (60 : Byte) ∉ (bytesOf pageHead).drop ((bytesOf pageHead).length - 3) := by
    decide
  have himg : imgTag = 60 :: [105, 109, 103] := by decide
  have ht60 : (60 : Byte) ∉ t.map Char.toNat := by
    intro h
    obtain ⟨c, hc, hc60⟩ := List.mem_map.mp h
    exact (plainChars_escape c (plainChar_mem c (ht c hc))).2 hc60
  rw [List.append_assoc, hsplit, himg,
    countOcc_append 60 [105, 109, 103] _ _ hlen hno, ← hsplit, ← himg,
    countOcc_pageHead, himg, countOcc_skip 60 _ _ _ ht60, ← himg, countOcc_pageTail]

/-! ## Facts about template execution -/

theorem execNodes_spec (d : PageData) (ns : List Node) : ∀ w : ResponseWriter,
    (execNodes ns d w).1.response.status = w.response.status ∧
    (execNodes ns d w).1.response.header = w.response.header ∧
    (w.wroteHeader = true → (execNodes ns d w).1.wroteHeader = true) ∧
    (∃ q, q <+: (renderAll d ns).map Char.toNat ∧ (execNodes ns d w).1.body = w.body ++ q) ∧
    ((execNodes ns d w).2 = none →
      (execNodes ns d w).1.body = w.body ++ (renderAll d ns).map Char.toNat) := by
  induction ns with
  | nil => intro w; simp [execNodes, renderAll]
  | cons n ns ih =>
    intro w
    cases hn : renderNode d n with
    | error e =>
      simp [execNodes, hn]
    | ok out =>
      obtain ⟨hs, hh, hwh, ⟨q, hq, hb⟩, hok⟩ := Write_spec w (out.map Char.toNat)
      rcases hW : w.Write (out.map Char.toNat) with ⟨w1, nw, e⟩
      rw [hW] at hs hh hwh hb hok
      simp only at hs hh hwh hb hok
      have hra : renderAll d (n :: ns) = out ++ renderAll d ns := by
        simp [renderAll, List.flatMap_cons, hn]
      cases e with
      | some ew =>
        simp only [execNodes, hn, hW, hra]
        refine ⟨hs, hh, fun _ => hwh, ⟨q, ?_, hb⟩, by simp⟩
        exact hq.trans (by simp)
      | none =>
        obtain ⟨hb1, _⟩ := hok rfl
        obtain ⟨is, ih', iwh, ⟨q2, hq2, hb2⟩, iok⟩ := ih w1
        simp only [execNodes, hn, hW, hra]
        refine ⟨is.trans hs, ih'.trans hh, fun _ => iwh hwh, ⟨out.map Char.toNat ++ q2, ?_, ?_⟩, ?_⟩
        · simpa using (List.prefix_append_right_inj (out.map Char.toNat)).mpr hq2
        · rw [hb2, hb1, List.append_assoc]
        · intro h
          rw [iok h, hb1]
          simp

/-- After a first text node the status is committed, however execution ends. -/
theorem execNodes_text_commits (d : PageData) (t : List Char) (ns : List Node)
    (w : ResponseWriter) : (execNodes (Node.text t :: ns) d w).1.wroteHeader = true := by
  obtain ⟨_, _, hwh, _, _⟩ := Write_spec w (t.map Char.toNat)
  rcases hW : w.Write (t.map Char.toNat) with ⟨w1, nw, e⟩
  rw [hW] at hwh
  cases e with
  | some ew => simpa [execNodes, renderNode, hW] using hwh
  | none =>
    simp only [execNodes, renderNode, hW]
    exact (execNodes_spec d ns w1).2.2.1 hwh

/-- On a writer whose status is committed, `http.Error` changes neither status
nor headers; it can only append to the body. -/
theorem Error_committed (w : ResponseWriter) (msg : String) (code : Int)
    (hw : w.wroteHeader = true) :
    (Error w msg code).response.status = w.response.status ∧
    (Error w msg code).response.header = w.response.header ∧
    w.body <+: (Error w msg code).body := by
  obtain ⟨hs, hh, _, ⟨q, _, hb⟩, _⟩ := Write_spec
    ((((w.DelHeader "Content-Length").SetHeader "Content-Type"
      "text/plain; charset=utf-8").SetHeader "X-Content-Type-Options" "nosniff").WriteHeader code)
    (bytesOf (msg ++ "\n"))
  unfold Error
  simp only [hs, hh, hb]
  refine ⟨?_, ?_, ?_⟩
  · simp [ResponseWriter.response, ResponseWriter.WriteHeader, ResponseWriter.SetHeader,
      ResponseWriter.DelHeader, hw]
  · simp [ResponseWriter.response, ResponseWriter.WriteHeader, ResponseWriter.SetHeader,
      ResponseWriter.DelHeader, hw]
  · simp [ResponseWriter.WriteHeader, ResponseWriter.SetHeader,
      ResponseWriter.DelHeader, hw]

/-! ## The page renderer: the claims -/

theorem renderAll_tmpl (x : Int) :
    renderAll { Timestamp := String.mk (fmtInt x) } tmpl =
      pageHead.toList ++ fmtInt x ++ pageTail.toList := by
  rw [tmpl_nodes]
  simp only [renderAll, List.flatMap_cons, List.flatMap_nil, renderNode, PageData.field,
    if_true, String.toList, escapers_plain _ (fmtInt_plain x), List.append_nil,
    List.append_assoc]

theorem htmlHeader_Get : htmlHeader.Get "Content-Type" = "text/html; charset=utf-8" := by
  simp [htmlHeader, Header.Get, Header.Set, Header.Del, Header.empty, List.lookup]

/-- Status and headers of the reply of `serveHTML` are fixed by the first write
of the template, however its execution ends. -/
theorem serveHTML_status (s : World) (room : Option Nat) (werr : String) :
    (serveHTML s (ResponseWriter.fresh room werr)).w.response.status = 200 ∧
    (serveHTML s (ResponseWriter.fresh room werr)).w.response.header = htmlHeader := by
  have h0 : ((ResponseWriter.fresh room werr).SetHeader "Content-Type"
      "text/html; charset=utf-8").response.status = 200 ∧
      ((ResponseWriter.fresh room werr).SetHeader "Content-Type"
      "text/html; charset=utf-8").response.header = htmlHeader := by
    simp [ResponseWriter.fresh, ResponseWriter.SetHeader, ResponseWriter.response,
      ResponseWriter.WriteHeader, htmlHeader, StatusOK]
  obtain ⟨hs, hh, _, _, _⟩ := execNodes_spec { Timestamp := String.mk (fmtInt s.now) } tmpl
    ((ResponseWriter.fresh room werr).SetHeader "Content-Type" "text/html; charset=utf-8")
  have hc := execNodes_text_commits { Timestamp := String.mk (fmtInt s.now) } pageHead.toList
    [Node.action ".Timestamp".toList, Node.text pageTail.toList]
    ((ResponseWriter.fresh room werr).SetHeader "Content-Type" "text/html; charset=utf-8")
  rw [← tmpl_nodes] at hc
  rw [h0.1] at hs
  rw [h0.2] at hh
  rcases hE : execNodes tmpl { Timestamp := String.mk (fmtInt s.now) }
    ((ResponseWriter.fresh room werr).SetHeader "Content-Type" "text/html; charset=utf-8")
    with ⟨w1, e⟩
  rw [hE] at hs hh hc
  simp only at hs hh hc
  cases e with
  | none =>
    simp only [serveHTML, tmplExecute, hE]
    exact ⟨hs, hh⟩
  | some err =>
    obtain ⟨h1, h2, _⟩ := Error_committed w1 "Internal Server Error" StatusInternalServerError hc
    simp only [serveHTML, tmplExecute, hE]
    exact ⟨h1.trans hs, h2.trans hh⟩

/-- The body of the reply of `serveHTML` when the template ran to its end. -/
theorem serveHTML_body (s : World) (room : Option Nat) (werr : String)
    (h : (serveHTML s (ResponseWriter.fresh room werr)).err = none) :
    (serveHTML s (ResponseWriter.fresh room werr)).w.response.body = pageBody s.now := by
  obtain ⟨_, _, _, _, hok⟩ := execNodes_spec { Timestamp := String.mk (fmtInt s.now) } tmpl
    ((ResponseWriter.fresh room werr).SetHeader "Content-Type" "text/html; charset=utf-8")
  have hbody : ∀ w : ResponseWriter, w.response.body = w.body := fun w => by
    unfold ResponseWriter.response ResponseWriter.WriteHeader
    cases h : w.wroteHeader <;> simp [h]
  rcases hE : execNodes tmpl { Timestamp := String.mk (fmtInt s.now) }
    ((ResponseWriter.fresh room werr).SetHeader "Content-Type" "text/html; charset=utf-8")
    with ⟨w1, e⟩
  simp only [serveHTML, tmplExecute, hE] at h ⊢
  rw [hE] at hok
  cases e with
  | some err => simp at h
  | none =>
    simp only [hbody]
    rw [hok rfl, renderAll_tmpl]
    simp only [pageBody, bytesOf, ResponseWriter.fresh, ResponseWriter.SetHeader,
      List.nil_append, List.map_append]

theorem map_toNat_injective (a b : List Char) (h : a.map Char.toNat = b.map Char.toNat) :
    a = b := by
  have hinj : Function.Injective Char.toNat := by
    intro x y hxy
    rw [← Char.ofNat_toNat x, ← Char.ofNat_toNat y, hxy]
  exact List.map_injective_iff.mpr hinj h

theorem pageBody_injective (x y : Int) (h : pageBody x = pageBody y) : x = y := by
  unfold pageBody at h
  rw [List.append_assoc, List.append_assoc] at h
  have h1 := List.append_cancel_left h
  have h2 := List.append_cancel_right h1
  exact fmtInt_injective x y (map_toNat_injective _ _ h2)

/-- The image tag of the page: the page is some text, then the tag opened with
the source for the clock reading in double quotes, then some text. -/
theorem pageBody_img (x : Int) : ∃ pre post : List Byte,
    pageBody x = pre ++ bytesOf "<img src=\"" ++ imgSrc x ++ bytesOf "\"" ++ post := by
  obtain ⟨pre, h1⟩ : ∃ pre, bytesOf pageHead =
      pre ++ bytesOf "<img src=\"" ++ bytesOf "/image-from-api?t=" :=
    ⟨(bytesOf pageHead).take 344, by decide⟩
  obtain ⟨post, h2⟩ : ∃ post, bytesOf pageTail = bytesOf "\"" ++ post :=
    ⟨(bytesOf pageTail).drop 1, by decide⟩
  refine ⟨pre, post, ?_⟩
  unfold pageBody imgSrc
  rw [h1, h2]
  simp only [List.append_assoc]

/-- Claim C6.  A request to `serveHTML` whose template execution succeeds is
answered with status 200, `Content-Type: text/html; charset=utf-8` and a page
in which an image tag opens exactly once, with source `/image-from-api?t=`
followed by the decimal rendering of the clock reading of that request
(reading the rendering back gives the clock reading); two such requests with
different clock readings get different values of `t` and different bodies. -/
theorem serveHTML_page (s₁ s₂ : World) (room₁ room₂ : Option Nat) (werr₁ werr₂ : String)
    (h₁ : (serveHTML s₁ (ResponseWriter.fresh room₁ werr₁)).err = none)
    (h₂ : (serveHTML s₂ (ResponseWriter.fresh room₂ werr₂)).err = none) :
    (serveHTML s₁ (ResponseWriter.fresh room₁ werr₁)).w.response.status = 200 ∧
    (serveHTML s₁ (ResponseWriter.fresh room₁ werr₁)).w.response.header.Get "Content-Type" =
      "text/html; charset=utf-8" ∧
    countOcc imgTag (serveHTML s₁ (ResponseWriter.fresh room₁ werr₁)).w.response.body = 1 ∧
    (∃ pre post : List Byte,
      (serveHTML s₁ (ResponseWriter.fresh room₁ werr₁)).w.response.body =
        pre ++ bytesOf "<img src=\"" ++ imgSrc s₁.now ++ bytesOf "\"" ++ post) ∧
    imgSrc s₁.now = bytesOf "/image-from-api?t=" ++ (fmtInt s₁.now).map Char.toNat ∧
    decimalValue (fmtInt s₁.now) = s₁.now ∧
    (s₁.now ≠ s₂.now →
      fmtInt s₁.now ≠ fmtInt s₂.now ∧ imgSrc s₁.now ≠ imgSrc s₂.now ∧
      (serveHTML s₁ (ResponseWriter.fresh room₁ werr₁)).w.response.body ≠
        (serveHTML s₂ (ResponseWriter.fresh room₂ werr₂)).w.response.body) := by
  obtain ⟨hs, hh⟩ := serveHTML_status s₁ room₁ werr₁
  have hb₁ := serveHTML_body s₁ room₁ werr₁ h₁
  have hb₂ := serveHTML_body s₂ room₂ werr₂ h₂
  refine ⟨hs, ?_, ?_, ?_, rfl, decimalValue_fmtInt _, ?_⟩
  · rw [hh]; exact htmlHeader_Get
  · rw [hb₁]; exact countOcc_page _ (fmtInt_plain _)
  · rw [hb₁]; exact pageBody_img _
  · intro hne
    refine ⟨fun h => hne (fmtInt_injective _ _ h), ?_, ?_⟩
    · intro h
      unfold imgSrc at h
      exact hne (fmtInt_injective _ _ (map_toNat_injective _ _ (List.append_cancel_left h)))
    · rw [hb₁, hb₂]
      exact fun h => hne (pageBody_injective _ _ h)

theorem serveHTML_page_witness :
    (serveHTML (clockWorld 41) (ResponseWriter.fresh none "")).w.response.status = 200 ∧
    countOcc imgTag (serveHTML (clockWorld 41) (ResponseWriter.fresh none "")).w.response.body
      = 1 ∧
    imgSrc 41 = bytesOf "/image-from-api?t=41" ∧
    (serveHTML (clockWorld 41) (ResponseWriter.fresh none "")).w.response.body ≠
      (serveHTML (clockWorld 42) (ResponseWriter.fresh none "")).w.response.body :=
  have h := serveHTML_page (clockWorld 41) (clockWorld 42) none none "" "" (by decide) (by decide)
  ⟨h.1, h.2.2.1, by decide, (h.2.2.2.2.2.2 (by decide)).2.2⟩

/-- A connection with room for `p` and `m` more bytes takes `p` whole and keeps
room for `m` bytes. -/
theorem Write_room (w : ResponseWriter) (p : List Byte) (m : Nat)
    (h : w.room = none ∨ ∃ k, w.room = some k ∧ p.length + m ≤ k) :
    (w.Write p).2.2 = none ∧
    ((w.Write p).1.room = none ∨ ∃ k, (w.Write p).1.room = some k ∧ m ≤ k) := by
  unfold ResponseWriter.Write ResponseWriter.WriteHeader
  rcases h with h | ⟨k, hk, hle⟩
  · cases hw : w.wroteHeader <;> simp [hw, h] <;> split_ifs <;> simp_all
  · cases hw : w.wroteHeader <;> simp [hw, hk] <;> split_ifs <;> simp_all <;> omega

/-- Execution returns no error when every node renders and the connection has
room for all the output. -/
theorem execNodes_room (d : PageData) (ns : List Node) : ∀ w : ResponseWriter,
    (∀ n ∈ ns, ∃ out, renderNode d n = Except.ok out) →
    (w.room = none ∨ ∃ k, w.room = some k ∧ (renderAll d ns).length ≤ k) →
    (execNodes ns d w).2 = none := by
  induction ns with
  | nil => intro w _ _; rfl
  | cons n ns ih =>
    intro w hn hroom
    obtain ⟨out, hout⟩ := hn n (List.mem_cons_self _ _)
    have hra : renderAll d (n :: ns) = out ++ renderAll d ns := by
      simp [renderAll, List.flatMap_cons, hout]
    have hroom2 : w.room = none ∨ ∃ k, w.room = some k ∧
        (out.map Char.toNat).length + (renderAll d ns).length ≤ k := by
      rcases hroom with h | ⟨k, hk, hle⟩
      · exact Or.inl h
      · exact Or.inr ⟨k, hk, by simpa [hra] using hle⟩
    obtain ⟨he, hr⟩ := Write_room w (out.map Char.toNat) _ hroom2
    rcases hW : w.Write (out.map Char.toNat) with ⟨w1, nw, e⟩
    rw [hW] at he hr
    simp only at he hr
    subst he
    simp only [execNodes, hout, hW]
    exact ih w1 (fun n2 h2 => hn n2 (List.mem_cons_of_mem _ h2)) hr

theorem fmtDigits_eq_toDigitsCore (fuel : Nat) : ∀ (n : Nat) (acc : List Char),
    fmtDigits fuel n acc = Nat.toDigitsCore 10 fuel n acc := by
  induction fuel with
  | zero => intro n acc; rfl
  | succ fuel ih =>
    intro n acc
    simp only [fmtDigits, Nat.toDigitsCore, ih]

/-- An `int64` prints in at most twenty characters. -/
theorem fmtInt_length (x : Int) (hlo : -2 ^ 63 ≤ x) (hhi : x < 2 ^ 63) :
    (fmtInt x).length ≤ 20 := by
  have hlen : ∀ n : Nat, n < 10 ^ 19 → (fmtNat n).length ≤ 19 := by
    intro n hn
    unfold fmtNat
    rw [fmtDigits_eq_toDigitsCore]
    exact Nat.toDigitsCore_length 10 (by decide) (n + 1) n 19 hn (by decide)
  cases x with
  | ofNat n =>
    have hn : n < 10 ^ 19 := by
      have : (n : Int) < 2 ^ 63 := hhi
      omega
    exact le_trans (hlen n hn) (by decide)
  | negSucc n =>
    have hn : n + 1 < 10 ^ 19 := by
      have h1 : -2 ^ 63 ≤ Int.negSucc n := hlo
      have h2 : Int.negSucc n = -((n : Int) + 1) := rfl
      omega
    simpa [fmtInt] using hlen (n + 1) hn

/-- Template execution cannot fail on a connection that has room for the page.
The page for an `int64` clock reading is at most 476 bytes, and the writer
`net/http` hands to a handler buffers 2048 bytes before it touches the
connection: behind that server the error branch of `serveHTML` is not
taken. -/
theorem serveHTML_execute_succeeds (s : World) (room : Option Nat) (werr : String)
    (hlo : -2 ^ 63 ≤ s.now) (hhi : s.now < 2 ^ 63)
    (hroom : room = none ∨ ∃ k, room = some k ∧ 476 ≤ k) :
    (serveHTML s (ResponseWriter.fresh room werr)).err = none := by
  have hnodes : ∀ n ∈ tmpl, ∃ out,
      renderNode { Timestamp := String.mk (fmtInt s.now) } n = Except.ok out := by
    rw [tmpl_nodes]
    intro n hn
    simp only [List.mem_cons, List.mem_singleton, List.not_mem_nil, or_false] at hn
    rcases hn with rfl | rfl | rfl
    · exact ⟨_, rfl⟩
    · exact ⟨attrEscaper (urlEscaper (fmtInt s.now)), by
        simp only [renderNode, PageData.field, if_true, String.toList]⟩
    · exact ⟨_, rfl⟩
  have hlen : (renderAll { Timestamp := String.mk (fmtInt s.now) } tmpl).length ≤ 476 := by
    rw [renderAll_tmpl]
    have h1 : pageHead.toList.length = 372 := by decide
    have h2 : pageTail.toList.length = 84 := by decide
    have h3 := fmtInt_length s.now hlo hhi
    simp only [List.length_append, h1, h2]
    omega
  have hE := execNodes_room { Timestamp := String.mk (fmtInt s.now) } tmpl
    ((ResponseWriter.fresh room werr).SetHeader "Content-Type" "text/html; charset=utf-8")
    hnodes (by
      rcases hroom with h | ⟨k, hk, hle⟩
      · exact Or.inl (by simp [ResponseWriter.SetHeader, ResponseWriter.fresh, h])
      · exact Or.inr ⟨k, by simp [ResponseWriter.SetHeader, ResponseWriter.fresh, hk],
          le_trans hlen hle⟩)
  rcases hX : execNodes tmpl { Timestamp := String.mk (fmtInt s.now) }
    ((ResponseWriter.fresh room werr).SetHeader "Content-Type" "text/html; charset=utf-8")
    with ⟨w1, e⟩
  rw [hX] at hE
  simp only at hE
  subst hE
  simp only [serveHTML, tmplExecute, hX]

end Catops
